import Mathlib

/-!
# sdl2glsl: a verification development for `main.cpp`

A shallow embedding of the shader pipeline of `src/main.cpp` and of its
sprite motion loop.

* Addresses returned by `SDL_GL_GetProcAddress` are natural numbers, `0` being
  the null pointer.
* OpenGL object names (`GLuint`) are natural numbers, `GLint` values are
  integers.  Where the source converts between the two (`presentBackBuffer`)
  the 32-bit wrap-around is explicit.
* The OpenGL driver is external to the program.  It is modelled as a record of
  response functions, each of which may depend on the whole history of calls
  made so far; every call the program makes is appended to that history.
* Sprite coordinates (`float` in the source) are exact rationals.
-/

namespace Sdl2glsl

/-! ## Constants (lines 27-40) -/

def WIN_WIDTH : Int := 640
def WIN_HEIGHT : Int := 480
def WORLD_WIDTH : Int := 320
def WORLD_HEIGHT : Int := 240
def MAX_SPRITES : Nat := 20

/-! ## Function-pointer resolver (lines 46-80) -/

/-- The thirteen global function pointers of lines 46-58.  Each field holds an
address, `0` is the null pointer. -/
structure GLExtensions where
  glCreateShader : Nat
  glShaderSource : Nat
  glCompileShader : Nat
  glGetShaderiv : Nat
  glGetShaderInfoLog : Nat
  glDeleteShader : Nat
  glAttachShader : Nat
  glCreateProgram : Nat
  glLinkProgram : Nat
  glValidateProgram : Nat
  glGetProgramiv : Nat
  glGetProgramInfoLog : Nat
  glUseProgram : Nat
  deriving DecidableEq, Repr

/-- The globals before `initGLExtensions` runs: objects of static storage
duration are zero-initialised, so every pointer is null. -/
def GLExtensions.unresolved : GLExtensions :=
  ⟨0, 0, 0, 0, 0, 0, 0, 0, 0, 0, 0, 0, 0⟩

/-- Lines 60-80.  The argument is `SDL_GL_GetProcAddress`; the result is the
returned boolean together with the globals as the function leaves them. -/
def initGLExtensions (SDL_GL_GetProcAddress : String → Nat) : Bool × GLExtensions :=
  let glCreateShader := SDL_GL_GetProcAddress "glCreateShader"
  let glShaderSource := SDL_GL_GetProcAddress "glShaderSource"
  let glCompileShader := SDL_GL_GetProcAddress "glCompileShader"
  let glGetShaderiv := SDL_GL_GetProcAddress "glGetShaderiv"
  let glGetShaderInfoLog := SDL_GL_GetProcAddress "glGetShaderInfoLog"
  let glDeleteShader := SDL_GL_GetProcAddress "glDeleteShader"
  let glAttachShader := SDL_GL_GetProcAddress "glAttachShader"
  let glCreateProgram := SDL_GL_GetProcAddress "glCreateProgram"
  let glLinkProgram := SDL_GL_GetProcAddress "glLinkProgram"
  let glValidateProgram := SDL_GL_GetProcAddress "glValidateProgram"
  let glGetProgramiv := SDL_GL_GetProcAddress "glGetProgramiv"
  let glGetProgramInfoLog := SDL_GL_GetProcAddress "glGetProgramInfoLog"
  let glUseProgram := SDL_GL_GetProcAddress "glUseProgram"
  (decide (glCreateShader ≠ 0) && decide (glShaderSource ≠ 0)
      && decide (glCompileShader ≠ 0) && decide (glGetShaderiv ≠ 0)
      && decide (glGetShaderInfoLog ≠ 0) && decide (glDeleteShader ≠ 0)
      && decide (glAttachShader ≠ 0) && decide (glCreateProgram ≠ 0)
      && decide (glLinkProgram ≠ 0) && decide (glValidateProgram ≠ 0)
      && decide (glGetProgramiv ≠ 0) && decide (glGetProgramInfoLog ≠ 0)
      && decide (glUseProgram ≠ 0),
    { glCreateShader := glCreateShader
      glShaderSource := glShaderSource
      glCompileShader := glCompileShader
      glGetShaderiv := glGetShaderiv
      glGetShaderInfoLog := glGetShaderInfoLog
      glDeleteShader := glDeleteShader
      glAttachShader := glAttachShader
      glCreateProgram := glCreateProgram
      glLinkProgram := glLinkProgram
      glValidateProgram := glValidateProgram
      glGetProgramiv := glGetProgramiv
      glGetProgramInfoLog := glGetProgramInfoLog
      glUseProgram := glUseProgram })

/-- The thirteen entry-point names the specification lists as required. -/
def requiredNames : List String :=
  ["glCreateShader", "glShaderSource", "glCompileShader", "glGetShaderiv",
   "glGetShaderInfoLog", "glDeleteShader", "glAttachShader", "glCreateProgram",
   "glLinkProgram", "glValidateProgram", "glGetProgramiv", "glGetProgramInfoLog",
   "glUseProgram"]

/-- Every slot of the table holds a non-null address. -/
def GLExtensions.populated (t : GLExtensions) : Bool :=
  decide (t.glCreateShader ≠ 0) && decide (t.glShaderSource ≠ 0)
    && decide (t.glCompileShader ≠ 0) && decide (t.glGetShaderiv ≠ 0)
    && decide (t.glGetShaderInfoLog ≠ 0) && decide (t.glDeleteShader ≠ 0)
    && decide (t.glAttachShader ≠ 0) && decide (t.glCreateProgram ≠ 0)
    && decide (t.glLinkProgram ≠ 0) && decide (t.glValidateProgram ≠ 0)
    && decide (t.glGetProgramiv ≠ 0) && decide (t.glGetProgramInfoLog ≠ 0)
    && decide (t.glUseProgram ≠ 0)

/-! ## Startup path of `main` on the runtime-resolution platform (lines 216-284) -/

/-- The C library function `strncmp` on strings given as the characters before
their terminator: the sign of the first difference among the first `n`
characters, the end of a string counting as the smallest character. -/
def strncmp : List Char → List Char → Nat → Int
  | _, _, 0 => 0
  | [], [], _ + 1 => 0
  | [], _ :: _, _ + 1 => -1
  | _ :: _, [], _ + 1 => 1
  | a :: as, b :: bs, n + 1 =>
    if a = b then strncmp as bs n else if a.toNat < b.toNat then -1 else 1

/-- What `main` does that matters for the shader pipeline, in program order. -/
inductive StartupEvent
  /-- The call `initGLExtensions()` of line 242 and the value it returned. -/
  | initGLExtensions (ok : Bool)
  /-- The call `SDL_Quit()` of line 244. -/
  | SDL_Quit
  /-- The process ends with this status (`return 1` of line 224, `exit(-1)`
  of line 245). -/
  | terminated (status : Int)
  /-- The call `compileProgram(...)` of line 251, with the function-pointer
  globals it will call through. -/
  | compileProgram (table : GLExtensions)
  /-- The loop of line 284 is entered. -/
  | mainLoop
  deriving DecidableEq, Repr

/-- Lines 222-284 without `__APPLE__`: `sdlInit` is the value returned by
`SDL_Init`, `rendererName` is `rendererInfo.name`, and `SDL_GL_GetProcAddress`
is the resolver. -/
def mainStartup (sdlInit : Int) (rendererName : List Char)
    (SDL_GL_GetProcAddress : String → Nat) : List StartupEvent :=
  if sdlInit ≠ 0 then
    [.terminated 1]
  else if strncmp rendererName "opengl".toList 6 = 0 then
    let r := initGLExtensions SDL_GL_GetProcAddress
    if !r.1 then
      [.initGLExtensions r.1, .SDL_Quit, .terminated (-1)]
    else
      [.initGLExtensions r.1, .compileProgram r.2, .mainLoop]
  else
    [.compileProgram GLExtensions.unresolved, .mainLoop]

/-! ## Sprite motion (lines 33-38 and 291-310) -/

/-- Lines 33-38, with exact rational coordinates. -/
structure sprite where
  x : ℚ
  y : ℚ
  vx : ℚ
  vy : ℚ
  deriving DecidableEq

/-- The fields `w` and `h` of `targetRect`, set at lines 269-270 and never
changed afterwards. -/
def targetRect_w : Int := 32
def targetRect_h : Int := 32

/-- Line 293. -/
def moveX (s : sprite) : sprite := { s with x := s.x + s.vx }

/-- Lines 294-297. -/
def bounceLowX (s : sprite) : sprite :=
  if s.x < 0 then { s with x := 0, vx := s.vx * -1 } else s

/-- Lines 298-301. -/
def bounceHighX (s : sprite) : sprite :=
  if s.x > ((WORLD_WIDTH - targetRect_w : Int) : ℚ) then
    { s with x := ((WORLD_WIDTH - targetRect_w : Int) : ℚ), vx := s.vx * -1 }
  else s

/-- Line 302. -/
def moveY (s : sprite) : sprite := { s with y := s.y + s.vy }

/-- Lines 303-306. -/
def bounceLowY (s : sprite) : sprite :=
  if s.y < 0 then { s with y := 0, vy := s.vy * -1 } else s

/-- Lines 307-310. -/
def bounceHighY (s : sprite) : sprite :=
  if s.y > ((WORLD_HEIGHT - targetRect_h : Int) : ℚ) then
    { s with y := ((WORLD_HEIGHT - targetRect_h : Int) : ℚ), vy := s.vy * -1 }
  else s

/-- The per-frame motion of one sprite, lines 293-310. -/
def tick (s : sprite) : sprite :=
  bounceHighY (bounceLowY (moveY (bounceHighX (bounceLowX (moveX s)))))

/-- The state of a sprite after `n` frames. -/
def ticks : Nat → sprite → sprite
  | 0, s => s
  | n + 1, s => ticks n (tick s)

/-- The test of line 294 succeeds during this tick. -/
def lowBranchX (s : sprite) : Prop := (moveX s).x < 0

/-- The test of line 298 succeeds during this tick. -/
def highBranchX (s : sprite) : Prop :=
  (bounceLowX (moveX s)).x > ((WORLD_WIDTH - targetRect_w : Int) : ℚ)

/-- The test of line 303 succeeds during this tick. -/
def lowBranchY (s : sprite) : Prop := (moveY (bounceHighX (bounceLowX (moveX s)))).y < 0

/-- The test of line 307 succeeds during this tick. -/
def highBranchY (s : sprite) : Prop :=
  (bounceLowY (moveY (bounceHighX (bounceLowX (moveX s))))).y
    > ((WORLD_HEIGHT - targetRect_h : Int) : ℚ)

instance (s : sprite) : Decidable (lowBranchX s) := by unfold lowBranchX; infer_instance
instance (s : sprite) : Decidable (highBranchX s) := by unfold highBranchX; infer_instance
instance (s : sprite) : Decidable (lowBranchY s) := by unfold lowBranchY; infer_instance
instance (s : sprite) : Decidable (highBranchY s) := by unfold highBranchY; infer_instance

/-- The position lies in the rectangle the sprite may occupy. -/
def inBounds (s : sprite) : Prop :=
  0 ≤ s.x ∧ s.x ≤ 288 ∧ 0 ≤ s.y ∧ s.y ≤ 208

/-! ## The OpenGL driver as seen by the shader pipeline -/

/-- Values of the OpenGL headers used by lines 84-154. -/
def GL_FALSE : Int := 0
def GL_TRUE : Int := 1
def GL_FRAGMENT_SHADER : Nat := 0x8B30
def GL_VERTEX_SHADER : Nat := 0x8B31
def GL_COMPILE_STATUS : Nat := 0x8B81
def GL_INFO_LOG_LENGTH : Nat := 0x8B84

/-- One call through the function-pointer table, with the value the driver
gave back where the call has one. -/
inductive GLCall
  | glCreateShader (shaderType : Nat) (ret : Nat)
  | glShaderSource (shader : Nat) (source : String)
  | glCompileShader (shader : Nat)
  | glGetShaderiv (shader : Nat) (pname : Nat) (ret : Int)
  | glGetShaderInfoLog (shader : Nat) (bufSize : Int)
  | glDeleteShader (shader : Nat)
  | glCreateProgram (ret : Nat)
  | glAttachShader (program : Nat) (shader : Nat)
  | glLinkProgram (program : Nat)
  | glValidateProgram (program : Nat)
  | glGetProgramiv (program : Nat) (pname : Nat) (ret : Int)
  | glGetProgramInfoLog (program : Nat) (bufSize : Int)
  deriving DecidableEq, Repr

/-- The driver: what each value-returning entry point answers, given all the
calls made before it.  For the two queries the answer is the content of the
output variable after the call. -/
structure Driver where
  glCreateShader : List GLCall → Nat → Nat
  glGetShaderiv : List GLCall → Nat → Nat → Int
  glCreateProgram : List GLCall → Nat
  glGetProgramiv : List GLCall → Nat → Nat → Int

/-- Lines 84-113.  `tr` is the history of calls before this one; the result is
the returned handle and the calls made, in order.  Console output is not
modelled. -/
def compileShader (gl : Driver) (tr : List GLCall) (source : String) (shaderType : Nat) :
    Nat × List GLCall :=
  let result := gl.glCreateShader tr shaderType
  let c1 : List GLCall :=
    [.glCreateShader shaderType result, .glShaderSource result source, .glCompileShader result]
  let shaderCompiled := gl.glGetShaderiv (tr ++ c1) result GL_COMPILE_STATUS
  let c2 := c1 ++ [GLCall.glGetShaderiv result GL_COMPILE_STATUS shaderCompiled]
  if shaderCompiled ≠ GL_TRUE then
    let logLength := gl.glGetShaderiv (tr ++ c2) result GL_INFO_LOG_LENGTH
    let c3 := c2 ++ [GLCall.glGetShaderiv result GL_INFO_LOG_LENGTH logLength]
    let c4 := if logLength > 0 then c3 ++ [GLCall.glGetShaderInfoLog result logLength] else c3
    (0, c4 ++ [GLCall.glDeleteShader result])
  else
    (result, c2)

/-- Lines 129-146 of `compileProgram`: the calls made by the block guarded by
`vtxShaderId && fragShaderId`. -/
def linkStage (gl : Driver) (tr : List GLCall) (programId vtxShaderId fragShaderId : Nat) :
    List GLCall :=
  if vtxShaderId ≠ 0 ∧ fragShaderId ≠ 0 then
    let c1 : List GLCall :=
      [.glAttachShader programId vtxShaderId, .glAttachShader programId fragShaderId,
       .glLinkProgram programId, .glValidateProgram programId]
    let logLen := gl.glGetProgramiv (tr ++ c1) programId GL_INFO_LOG_LENGTH
    let c2 := c1 ++ [GLCall.glGetProgramiv programId GL_INFO_LOG_LENGTH logLen]
    if logLen > 0 then c2 ++ [GLCall.glGetProgramInfoLog programId logLen] else c2
  else []

/-- Lines 147-152 of `compileProgram`: the two guarded deletions. -/
def releaseShaders (vtxShaderId fragShaderId : Nat) : List GLCall :=
  (if vtxShaderId ≠ 0 then [GLCall.glDeleteShader vtxShaderId] else [])
    ++ (if fragShaderId ≠ 0 then [GLCall.glDeleteShader fragShaderId] else [])

/-- Lines 115-154.  `readFile` gives the text read from a path (what the
`ifstream` yields, empty for a file that cannot be opened); `tr` is the history
of calls before this one; the result is the returned handle and the calls
made, in order. -/
def compileProgram (gl : Driver) (readFile : String → String) (tr : List GLCall)
    (vtxFile fragFile : String) : Nat × List GLCall :=
  let programId := gl.glCreateProgram tr
  let c0 : List GLCall := [.glCreateProgram programId]
  let vtx := compileShader gl (tr ++ c0) (readFile vtxFile) GL_VERTEX_SHADER
  let c1 := c0 ++ vtx.2
  let frag := compileShader gl (tr ++ c1) (readFile fragFile) GL_FRAGMENT_SHADER
  let c2 := c1 ++ frag.2
  let c3 := c2 ++ linkStage gl (tr ++ c2) programId vtx.1 frag.1
  (programId, c3 ++ releaseShaders vtx.1 frag.1)

/-- The handle `glCreateShader` gives to a `compileShader` call (line 88). -/
def shaderHandle (gl : Driver) (tr : List GLCall) (shaderType : Nat) : Nat :=
  gl.glCreateShader tr shaderType

/-- The calls of lines 88-92, made before the compile status is queried. -/
def compileCalls (gl : Driver) (tr : List GLCall) (source : String) (shaderType : Nat) :
    List GLCall :=
  [.glCreateShader shaderType (shaderHandle gl tr shaderType),
   .glShaderSource (shaderHandle gl tr shaderType) source,
   .glCompileShader (shaderHandle gl tr shaderType)]

/-- The compile-status flag a `compileShader` call reads at line 96. -/
def compileStatus (gl : Driver) (tr : List GLCall) (source : String) (shaderType : Nat) : Int :=
  gl.glGetShaderiv (tr ++ compileCalls gl tr source shaderType)
    (shaderHandle gl tr shaderType) GL_COMPILE_STATUS

/-- The log length a `compileShader` call reads at line 100 when the compile
status is not true. -/
def infoLogLength (gl : Driver) (tr : List GLCall) (source : String) (shaderType : Nat) : Int :=
  gl.glGetShaderiv
    (tr ++ compileCalls gl tr source shaderType
      ++ [GLCall.glGetShaderiv (shaderHandle gl tr shaderType) GL_COMPILE_STATUS
            (compileStatus gl tr source shaderType)])
    (shaderHandle gl tr shaderType) GL_INFO_LOG_LENGTH

/-- The handles returned by the `glCreateShader` calls of a trace. -/
def createdShaders (calls : List GLCall) : List Nat :=
  calls.filterMap fun c => match c with
    | .glCreateShader _ ret => some ret
    | _ => none

/-- The stage kinds of the `glCreateShader` calls of a trace. -/
def createdKinds (calls : List GLCall) : List Nat :=
  calls.filterMap fun c => match c with
    | .glCreateShader shaderType _ => some shaderType
    | _ => none

/-- The arguments of the `glDeleteShader` calls of a trace. -/
def deletedShaders (calls : List GLCall) : List Nat :=
  calls.filterMap fun c => match c with
    | .glDeleteShader shader => some shader
    | _ => none

/-- The buffer sizes of the `glGetShaderInfoLog` calls of a trace. -/
def retrievedLogs (calls : List GLCall) : List Int :=
  calls.filterMap fun c => match c with
    | .glGetShaderInfoLog _ bufSize => some bufSize
    | _ => none

/-- The attach, link and validate calls of a trace. -/
def linkCalls (calls : List GLCall) : List GLCall :=
  calls.filter fun c => match c with
    | .glAttachShader _ _ => true
    | .glLinkProgram _ => true
    | .glValidateProgram _ => true
    | _ => false

/-- The `compileShader` call of line 123 inside `compileProgram`. -/
def vtxStage (gl : Driver) (readFile : String → String) (tr : List GLCall)
    (vtxFile : String) : Nat × List GLCall :=
  compileShader gl (tr ++ [GLCall.glCreateProgram (gl.glCreateProgram tr)])
    (readFile vtxFile) GL_VERTEX_SHADER

/-- The `compileShader` call of line 127 inside `compileProgram`. -/
def fragStage (gl : Driver) (readFile : String → String) (tr : List GLCall)
    (vtxFile fragFile : String) : Nat × List GLCall :=
  compileShader gl
    (tr ++ ([GLCall.glCreateProgram (gl.glCreateProgram tr)]
      ++ (vtxStage gl readFile tr vtxFile).2))
    (readFile fragFile) GL_FRAGMENT_SHADER

/-- A `compileShader` call succeeded: the driver reported a true compile
status for a non-null shader handle. -/
def stageCompiled (gl : Driver) (tr : List GLCall) (source : String) (shaderType : Nat) : Prop :=
  compileStatus gl tr source shaderType = GL_TRUE ∧ shaderHandle gl tr shaderType ≠ 0

instance (gl : Driver) (tr : List GLCall) (source : String) (shaderType : Nat) :
    Decidable (stageCompiled gl tr source shaderType) := by
  unfold stageCompiled; infer_instance

/-- The vertex stage of a `compileProgram` call compiled. -/
def vtxCompiled (gl : Driver) (readFile : String → String) (tr : List GLCall)
    (vtxFile : String) : Prop :=
  stageCompiled gl (tr ++ [GLCall.glCreateProgram (gl.glCreateProgram tr)])
    (readFile vtxFile) GL_VERTEX_SHADER

/-- The fragment stage of a `compileProgram` call compiled. -/
def fragCompiled (gl : Driver) (readFile : String → String) (tr : List GLCall)
    (vtxFile fragFile : String) : Prop :=
  stageCompiled gl
    (tr ++ ([GLCall.glCreateProgram (gl.glCreateProgram tr)]
      ++ (vtxStage gl readFile tr vtxFile).2))
    (readFile fragFile) GL_FRAGMENT_SHADER

instance (gl : Driver) (readFile : String → String) (tr : List GLCall) (vtxFile : String) :
    Decidable (vtxCompiled gl readFile tr vtxFile) := by
  unfold vtxCompiled; infer_instance

instance (gl : Driver) (readFile : String → String) (tr : List GLCall)
    (vtxFile fragFile : String) : Decidable (fragCompiled gl readFile tr vtxFile fragFile) := by
  unfold fragCompiled; infer_instance

/-- The handle created for the vertex stage of a `compileProgram` call. -/
def vtxHandle (gl : Driver) (tr : List GLCall) : Nat :=
  shaderHandle gl (tr ++ [GLCall.glCreateProgram (gl.glCreateProgram tr)]) GL_VERTEX_SHADER

/-- The handle created for the fragment stage of a `compileProgram` call. -/
def fragHandle (gl : Driver) (readFile : String → String) (tr : List GLCall)
    (vtxFile : String) : Nat :=
  shaderHandle gl
    (tr ++ ([GLCall.glCreateProgram (gl.glCreateProgram tr)]
      ++ (vtxStage gl readFile tr vtxFile).2))
    GL_FRAGMENT_SHADER

/-- A concrete driver used to run the pipeline on examples: object names are
allocated from the length of the history, a shader compiles when `compiles`
says so for its name, and every info log has length `logLen`. -/
def sampleDriver (compiles : Nat → Bool) (logLen : Int) : Driver where
  glCreateShader := fun tr _ => tr.length + 1
  glGetShaderiv := fun _ shader pname =>
    if pname = GL_COMPILE_STATUS then (if compiles shader then GL_TRUE else GL_FALSE)
    else logLen
  glCreateProgram := fun tr => tr.length + 1
  glGetProgramiv := fun _ _ _ => logLen

/-- A file system for the examples: every file is empty. -/
def emptyFiles : String → String := fun _ => ""

/-! ## Frame compositor (lines 156-200) -/

/-- Conversion of a `GLuint` to `GLint` (two's complement, 32 bits). -/
def toGLint (u : Nat) : Int :=
  if u % 2 ^ 32 < 2 ^ 31 then ((u % 2 ^ 32 : Nat) : Int) else ((u % 2 ^ 32 : Nat) : Int) - 2 ^ 32

/-- Conversion of a `GLint` to `GLuint` (reduction modulo `2 ^ 32`). -/
def toGLuint (i : Int) : Nat := (i % 2 ^ 32).toNat

/-- The part of the graphics state `presentBackBuffer` touches: the active
program slot of OpenGL, the render target and clear count of the SDL renderer,
the texture bound for sampling, the vertices emitted between `glBegin` and
`glEnd` as `(u, v, x, y)`, and the number of buffer swaps. -/
structure GLContext where
  currentProgram : Nat
  renderTarget : Option Nat
  clears : Nat
  boundTexture : Option Nat
  vertices : List (ℚ × ℚ × ℚ × ℚ)
  swaps : Nat

/-- The call `glUseProgram(program)`: sets the active program slot. -/
def glUseProgram (ctx : GLContext) (program : Nat) : GLContext :=
  { ctx with currentProgram := program }

/-- The call `glGetIntegerv(GL_CURRENT_PROGRAM, &v)`: reads the active program
slot into a `GLint`. -/
def glGetIntegerv_CURRENT_PROGRAM (ctx : GLContext) : Int :=
  toGLint ctx.currentProgram

/-- Lines 156-200.  `backBuffer` names the texture; `oldProgramId` is the
indeterminate initial value of the local of line 159.  The SDL calls
(`SDL_SetRenderTarget`, `SDL_RenderClear`, `SDL_GL_BindTexture`,
`SDL_GL_SwapWindow`) act on the renderer fields only; the active program slot
is written by `glUseProgram` alone. -/
def presentBackBuffer (ctx : GLContext) (backBuffer : Nat) (programId : Nat)
    (oldProgramId : Int) : GLContext :=
  let ctx := { ctx with renderTarget := none }
  let ctx := { ctx with clears := ctx.clears + 1 }
  let ctx := { ctx with boundTexture := some backBuffer }
  let old := if programId ≠ 0 then glGetIntegerv_CURRENT_PROGRAM ctx else oldProgramId
  let ctx := if programId ≠ 0 then glUseProgram ctx programId else ctx
  let minx : ℚ := 0
  let miny : ℚ := 0
  let maxx : ℚ := WIN_WIDTH
  let maxy : ℚ := WIN_HEIGHT
  let minu : ℚ := 0
  let maxu : ℚ := 1
  let minv : ℚ := 0
  let maxv : ℚ := 1
  let ctx := { ctx with vertices := ctx.vertices ++
    [(minu, minv, minx, miny), (maxu, minv, maxx, miny),
     (minu, maxv, minx, maxy), (maxu, maxv, maxx, maxy)] }
  let ctx := { ctx with swaps := ctx.swaps + 1 }
  if programId ≠ 0 then glUseProgram ctx (toGLuint old) else ctx

/-! ## Theorems -/

/-! ### Shape of a `compileShader` run -/

theorem compileShader_of_failed (gl : Driver) (tr : List GLCall) (source : String)
    (shaderType : Nat) (h : compileStatus gl tr source shaderType ≠ GL_TRUE) :
    compileShader gl tr source shaderType =
      (0, compileCalls gl tr source shaderType
        ++ [GLCall.glGetShaderiv (shaderHandle gl tr shaderType) GL_COMPILE_STATUS
              (compileStatus gl tr source shaderType),
            GLCall.glGetShaderiv (shaderHandle gl tr shaderType) GL_INFO_LOG_LENGTH
              (infoLogLength gl tr source shaderType)]
        ++ (if infoLogLength gl tr source shaderType > 0 then
              [GLCall.glGetShaderInfoLog (shaderHandle gl tr shaderType)
                (infoLogLength gl tr source shaderType)]
            else [])
        ++ [GLCall.glDeleteShader (shaderHandle gl tr shaderType)]) := by
  simp only [compileStatus, compileCalls, shaderHandle] at h
  simp only [compileShader, infoLogLength, compileStatus, compileCalls, shaderHandle]
  rw [if_pos h]
  simp only [List.cons_append, List.nil_append, List.append_assoc]
  split_ifs <;> simp

theorem compileShader_of_compiled (gl : Driver) (tr : List GLCall) (source : String)
    (shaderType : Nat) (h : compileStatus gl tr source shaderType = GL_TRUE) :
    compileShader gl tr source shaderType =
      (shaderHandle gl tr shaderType,
        compileCalls gl tr source shaderType
          ++ [GLCall.glGetShaderiv (shaderHandle gl tr shaderType) GL_COMPILE_STATUS
                (compileStatus gl tr source shaderType)]) := by
  have h2 := h
  simp only [compileStatus, compileCalls, shaderHandle] at h
  simp only [compileShader, compileStatus, compileCalls, shaderHandle]
  rw [if_neg (not_not.mpr h)]

theorem compileShader_created (gl : Driver) (tr : List GLCall) (source : String)
    (shaderType : Nat) :
    createdShaders (compileShader gl tr source shaderType).2 = [shaderHandle gl tr shaderType]
    ∧ createdKinds (compileShader gl tr source shaderType).2 = [shaderType] := by
  by_cases h : compileStatus gl tr source shaderType = GL_TRUE
  · rw [compileShader_of_compiled gl tr source shaderType h]
    simp [createdShaders, createdKinds, compileCalls]
  · rw [compileShader_of_failed gl tr source shaderType h]
    constructor <;> (split <;> simp [createdShaders, createdKinds, compileCalls])

theorem compileShader_deleted (gl : Driver) (tr : List GLCall) (source : String)
    (shaderType : Nat) :
    deletedShaders (compileShader gl tr source shaderType).2 =
      if compileStatus gl tr source shaderType = GL_TRUE then []
      else [shaderHandle gl tr shaderType] := by
  by_cases h : compileStatus gl tr source shaderType = GL_TRUE
  · rw [compileShader_of_compiled gl tr source shaderType h, if_pos h]
    simp [deletedShaders, compileCalls]
  · rw [compileShader_of_failed gl tr source shaderType h, if_neg h]
    split <;> simp [deletedShaders, compileCalls]

theorem compileShader_result (gl : Driver) (tr : List GLCall) (source : String)
    (shaderType : Nat) :
    (compileShader gl tr source shaderType).1 =
      if compileStatus gl tr source shaderType = GL_TRUE then shaderHandle gl tr shaderType
      else 0 := by
  by_cases h : compileStatus gl tr source shaderType = GL_TRUE
  · rw [compileShader_of_compiled gl tr source shaderType h, if_pos h]
  · rw [compileShader_of_failed gl tr source shaderType h, if_neg h]

theorem compileShader_linkCalls (gl : Driver) (tr : List GLCall) (source : String)
    (shaderType : Nat) :
    linkCalls (compileShader gl tr source shaderType).2 = [] := by
  by_cases h : compileStatus gl tr source shaderType = GL_TRUE
  · rw [compileShader_of_compiled gl tr source shaderType h]
    simp [linkCalls, compileCalls]
  · rw [compileShader_of_failed gl tr source shaderType h]
    split <;> simp [linkCalls, compileCalls]

theorem compileShader_nonnull_iff (gl : Driver) (tr : List GLCall) (source : String)
    (shaderType : Nat) :
    (compileShader gl tr source shaderType).1 ≠ 0 ↔ stageCompiled gl tr source shaderType := by
  rw [compileShader_result, stageCompiled]
  by_cases h : compileStatus gl tr source shaderType = GL_TRUE <;> simp [h]

/-! ### Shape of a `compileProgram` run -/

theorem compileProgram_calls (gl : Driver) (readFile : String → String) (tr : List GLCall)
    (vtxFile fragFile : String) :
    (compileProgram gl readFile tr vtxFile fragFile).2 =
      [GLCall.glCreateProgram (gl.glCreateProgram tr)]
        ++ (vtxStage gl readFile tr vtxFile).2
        ++ (fragStage gl readFile tr vtxFile fragFile).2
        ++ linkStage gl
            (tr ++ ([GLCall.glCreateProgram (gl.glCreateProgram tr)]
              ++ (vtxStage gl readFile tr vtxFile).2
              ++ (fragStage gl readFile tr vtxFile fragFile).2))
            (gl.glCreateProgram tr) (vtxStage gl readFile tr vtxFile).1
            (fragStage gl readFile tr vtxFile fragFile).1
        ++ releaseShaders (vtxStage gl readFile tr vtxFile).1
            (fragStage gl readFile tr vtxFile fragFile).1 := by
  rfl

theorem linkStage_created (gl : Driver) (tr : List GLCall) (p v f : Nat) :
    createdShaders (linkStage gl tr p v f) = [] ∧ deletedShaders (linkStage gl tr p v f) = [] := by
  simp only [linkStage]
  constructor <;> split_ifs <;> simp [createdShaders, deletedShaders]

theorem releaseShaders_created (v f : Nat) : createdShaders (releaseShaders v f) = [] := by
  unfold releaseShaders
  split <;> split <;> simp [createdShaders]

theorem releaseShaders_deleted (v f : Nat) :
    deletedShaders (releaseShaders v f) =
      (if v ≠ 0 then [v] else []) ++ (if f ≠ 0 then [f] else []) := by
  unfold releaseShaders
  split <;> split <;> simp [deletedShaders]

theorem releaseShaders_linkCalls (v f : Nat) : linkCalls (releaseShaders v f) = [] := by
  unfold releaseShaders
  split <;> split <;> simp [linkCalls]

theorem linkStage_linkCalls (gl : Driver) (tr : List GLCall) (p v f : Nat) :
    linkCalls (linkStage gl tr p v f) =
      if v ≠ 0 ∧ f ≠ 0 then
        [GLCall.glAttachShader p v, GLCall.glAttachShader p f, GLCall.glLinkProgram p,
         GLCall.glValidateProgram p]
      else [] := by
  simp only [linkStage]
  split_ifs <;> simp [linkCalls]

/-- C1: `initGLExtensions` returns true if and only if every one of the
thirteen required names resolved to a non-null address; so a single failed
lookup makes it return false. -/
theorem initGLExtensions_all_or_nothing (lookup : String → Nat) :
    ((initGLExtensions lookup).1 = true ↔ ∀ name ∈ requiredNames, lookup name ≠ 0)
    ∧ (∀ name ∈ requiredNames, lookup name = 0 → (initGLExtensions lookup).1 = false) := by
  have key : (initGLExtensions lookup).1 = true ↔ ∀ name ∈ requiredNames, lookup name ≠ 0 := by
    simp only [initGLExtensions, requiredNames, List.forall_mem_cons, List.not_mem_nil,
      Bool.and_eq_true, decide_eq_true_eq]
    tauto
  refine ⟨key, ?_⟩
  intro name hmem hzero
  cases hres : (initGLExtensions lookup).1 with
  | false => rfl
  | true => exact absurd hzero (key.mp hres name hmem)

theorem initGLExtensions_all_or_nothing_witness :
    (initGLExtensions (fun _ => 4096)).1 = true
    ∧ (initGLExtensions (fun name => if name = "glValidateProgram" then 0 else 4096)).1
        = false :=
  ⟨(initGLExtensions_all_or_nothing (fun _ => 4096)).1.mpr (fun _ _ => by decide),
   (initGLExtensions_all_or_nothing
      (fun name => if name = "glValidateProgram" then 0 else 4096)).2
      "glValidateProgram" (by simp [requiredNames]) (by simp)⟩

/-! ### The shader compiler -/

/-- C3: when the compile-status flag read after compilation is not true,
`compileShader` returns the null handle, deletes the shader it created (and
nothing else), and retrieves the info log exactly when the reported length is
positive; when the flag is true it returns the handle `glCreateShader` gave and
deletes nothing.  In both cases exactly one shader is created and the flag is
the one recorded in the trace. -/
theorem compileShader_contract (gl : Driver) (tr : List GLCall) (source : String)
    (shaderType : Nat) :
    (compileStatus gl tr source shaderType ≠ GL_TRUE →
      (compileShader gl tr source shaderType).1 = 0
      ∧ deletedShaders (compileShader gl tr source shaderType).2
          = [shaderHandle gl tr shaderType]
      ∧ retrievedLogs (compileShader gl tr source shaderType).2
          = (if infoLogLength gl tr source shaderType > 0 then
              [infoLogLength gl tr source shaderType] else [])
      ∧ GLCall.glGetShaderiv (shaderHandle gl tr shaderType) GL_INFO_LOG_LENGTH
          (infoLogLength gl tr source shaderType) ∈ (compileShader gl tr source shaderType).2)
    ∧ (compileStatus gl tr source shaderType = GL_TRUE →
      (compileShader gl tr source shaderType).1 = shaderHandle gl tr shaderType
      ∧ deletedShaders (compileShader gl tr source shaderType).2 = []
      ∧ retrievedLogs (compileShader gl tr source shaderType).2 = [])
    ∧ createdShaders (compileShader gl tr source shaderType).2 = [shaderHandle gl tr shaderType]
    ∧ GLCall.glGetShaderiv (shaderHandle gl tr shaderType) GL_COMPILE_STATUS
        (compileStatus gl tr source shaderType) ∈ (compileShader gl tr source shaderType).2 := by
  refine ⟨?_, ?_, (compileShader_created gl tr source shaderType).1, ?_⟩
  · intro h
    rw [compileShader_of_failed gl tr source shaderType h]
    refine ⟨rfl, ?_, ?_, ?_⟩
    · split_ifs <;> simp [deletedShaders, compileCalls]
    · split_ifs <;> simp [retrievedLogs, compileCalls]
    · simp
  · intro h
    rw [compileShader_of_compiled gl tr source shaderType h]
    refine ⟨rfl, ?_, ?_⟩
    · simp [deletedShaders, compileCalls]
    · simp [retrievedLogs, compileCalls]
  · by_cases h : compileStatus gl tr source shaderType = GL_TRUE
    · rw [compileShader_of_compiled gl tr source shaderType h]; simp
    · rw [compileShader_of_failed gl tr source shaderType h]; simp

theorem compileShader_contract_witness :
    (compileStatus (sampleDriver (fun _ => false) 5) [] "void main(" GL_FRAGMENT_SHADER ≠ GL_TRUE
      ∧ (compileShader (sampleDriver (fun _ => false) 5) [] "void main(" GL_FRAGMENT_SHADER).1 = 0
      ∧ deletedShaders
          (compileShader (sampleDriver (fun _ => false) 5) [] "void main(" GL_FRAGMENT_SHADER).2
          = [1])
    ∧ (compileStatus (sampleDriver (fun _ => true) 0) [] "void main()\x7b\x7d" GL_VERTEX_SHADER
        = GL_TRUE
      ∧ (compileShader (sampleDriver (fun _ => true) 0) [] "void main()\x7b\x7d"
          GL_VERTEX_SHADER).1 = 1
      ∧ deletedShaders
          (compileShader (sampleDriver (fun _ => true) 0) [] "void main()\x7b\x7d"
            GL_VERTEX_SHADER).2 = []) :=
  ⟨⟨by decide,
    ((compileShader_contract (sampleDriver (fun _ => false) 5) [] "void main("
      GL_FRAGMENT_SHADER).1 (by decide)).1,
    ((compileShader_contract (sampleDriver (fun _ => false) 5) [] "void main("
      GL_FRAGMENT_SHADER).1 (by decide)).2.1⟩,
   ⟨by decide,
    ((compileShader_contract (sampleDriver (fun _ => true) 0) [] "void main()\x7b\x7d"
      GL_VERTEX_SHADER).2.1 (by decide)).1,
    ((compileShader_contract (sampleDriver (fun _ => true) 0) [] "void main()\x7b\x7d"
      GL_VERTEX_SHADER).2.1 (by decide)).2.1⟩⟩

/-! ### The program linker -/

theorem vtxStage_nonnull_iff (gl : Driver) (readFile : String → String) (tr : List GLCall)
    (vtxFile : String) :
    (vtxStage gl readFile tr vtxFile).1 ≠ 0 ↔ vtxCompiled gl readFile tr vtxFile :=
  compileShader_nonnull_iff _ _ _ _

theorem fragStage_nonnull_iff (gl : Driver) (readFile : String → String) (tr : List GLCall)
    (vtxFile fragFile : String) :
    (fragStage gl readFile tr vtxFile fragFile).1 ≠ 0
      ↔ fragCompiled gl readFile tr vtxFile fragFile :=
  compileShader_nonnull_iff _ _ _ _

theorem linkCalls_append (a b : List GLCall) : linkCalls (a ++ b) = linkCalls a ++ linkCalls b := by
  simp [linkCalls]

theorem createdShaders_append (a b : List GLCall) :
    createdShaders (a ++ b) = createdShaders a ++ createdShaders b := by
  simp [createdShaders]

theorem deletedShaders_append (a b : List GLCall) :
    deletedShaders (a ++ b) = deletedShaders a ++ deletedShaders b := by
  simp [deletedShaders]

theorem compileProgram_linkCalls (gl : Driver) (readFile : String → String) (tr : List GLCall)
    (vtxFile fragFile : String) :
    linkCalls (compileProgram gl readFile tr vtxFile fragFile).2 =
      if (vtxStage gl readFile tr vtxFile).1 ≠ 0
          ∧ (fragStage gl readFile tr vtxFile fragFile).1 ≠ 0 then
        [GLCall.glAttachShader (gl.glCreateProgram tr) (vtxStage gl readFile tr vtxFile).1,
         GLCall.glAttachShader (gl.glCreateProgram tr)
           (fragStage gl readFile tr vtxFile fragFile).1,
         GLCall.glLinkProgram (gl.glCreateProgram tr),
         GLCall.glValidateProgram (gl.glCreateProgram tr)]
      else [] := by
  rw [compileProgram_calls]
  simp only [linkCalls_append, linkStage_linkCalls, releaseShaders_linkCalls, vtxStage,
    fragStage, compileShader_linkCalls, List.append_nil, List.nil_append]
  simp [linkCalls]

/-- C4: `compileProgram` returns the handle `glCreateProgram` gave at the start
of the call, whatever the two stages did.  When both stages compiled (true
compile status on a non-null shader handle) the attach, link and validate calls
made are exactly the two attaches, the link and the validate on that program;
when at least one stage did not compile, no attach, link or validate call is
made at all, so the returned program is unlinked. -/
theorem compileProgram_returns_program (gl : Driver) (readFile : String → String)
    (tr : List GLCall) (vtxFile fragFile : String) :
    (compileProgram gl readFile tr vtxFile fragFile).1 = gl.glCreateProgram tr
    ∧ (compileProgram gl readFile tr vtxFile fragFile).2.head?
        = some (GLCall.glCreateProgram (gl.glCreateProgram tr))
    ∧ (vtxCompiled gl readFile tr vtxFile ∧ fragCompiled gl readFile tr vtxFile fragFile →
        linkCalls (compileProgram gl readFile tr vtxFile fragFile).2 =
          [GLCall.glAttachShader (gl.glCreateProgram tr) (vtxHandle gl tr),
           GLCall.glAttachShader (gl.glCreateProgram tr) (fragHandle gl readFile tr vtxFile),
           GLCall.glLinkProgram (gl.glCreateProgram tr),
           GLCall.glValidateProgram (gl.glCreateProgram tr)])
    ∧ (¬ (vtxCompiled gl readFile tr vtxFile ∧ fragCompiled gl readFile tr vtxFile fragFile) →
        linkCalls (compileProgram gl readFile tr vtxFile fragFile).2 = []) := by
  refine ⟨rfl, ?_, ?_, ?_⟩
  · rw [compileProgram_calls]; simp
  · intro hb
    have hv := (vtxStage_nonnull_iff gl readFile tr vtxFile).mpr hb.1
    have hf := (fragStage_nonnull_iff gl readFile tr vtxFile fragFile).mpr hb.2
    rw [compileProgram_linkCalls, if_pos ⟨hv, hf⟩]
    have ev : (vtxStage gl readFile tr vtxFile).1 = vtxHandle gl tr := by
      rw [vtxStage, compileShader_result, if_pos hb.1.1]; rfl
    have ef : (fragStage gl readFile tr vtxFile fragFile).1 = fragHandle gl readFile tr vtxFile := by
      rw [fragStage, compileShader_result, if_pos hb.2.1]; rfl
    rw [ev, ef]
  · intro hb
    rw [compileProgram_linkCalls, if_neg]
    rw [vtxStage_nonnull_iff, fragStage_nonnull_iff]
    exact hb

theorem compileProgram_returns_program_witness :
    (vtxCompiled (sampleDriver (fun _ => true) 0) emptyFiles [] "std.vertex"
      ∧ fragCompiled (sampleDriver (fun _ => true) 0) emptyFiles [] "std.vertex" "crt.fragment")
    ∧ linkCalls (compileProgram (sampleDriver (fun _ => true) 0) emptyFiles []
        "std.vertex" "crt.fragment").2
      = [GLCall.glAttachShader 1 2, GLCall.glAttachShader 1 6, GLCall.glLinkProgram 1,
         GLCall.glValidateProgram 1]
    ∧ ¬ (vtxCompiled (sampleDriver (fun h => h == 2) 0) emptyFiles [] "std.vertex"
      ∧ fragCompiled (sampleDriver (fun h => h == 2) 0) emptyFiles [] "std.vertex"
          "crt.fragment")
    ∧ (compileProgram (sampleDriver (fun h => h == 2) 0) emptyFiles []
        "std.vertex" "crt.fragment").1 = 1
    ∧ linkCalls (compileProgram (sampleDriver (fun h => h == 2) 0) emptyFiles []
        "std.vertex" "crt.fragment").2 = [] :=
  ⟨by decide,
   (compileProgram_returns_program (sampleDriver (fun _ => true) 0) emptyFiles []
      "std.vertex" "crt.fragment").2.2.1 (by decide),
   by decide,
   (compileProgram_returns_program (sampleDriver (fun h => h == 2) 0) emptyFiles []
      "std.vertex" "crt.fragment").1,
   (compileProgram_returns_program (sampleDriver (fun h => h == 2) 0) emptyFiles []
      "std.vertex" "crt.fragment").2.2.2 (by decide)⟩

theorem vtxStage_result (gl : Driver) (readFile : String → String) (tr : List GLCall)
    (vtxFile : String) [Decidable (vtxCompiled gl readFile tr vtxFile)] :
    (vtxStage gl readFile tr vtxFile).1 =
      if vtxCompiled gl readFile tr vtxFile then vtxHandle gl tr else 0 := by
  by_cases h : vtxCompiled gl readFile tr vtxFile
  · rw [if_pos h, vtxStage, compileShader_result, if_pos h.1]; rfl
  · rw [if_neg h]
    by_contra hne
    exact h ((vtxStage_nonnull_iff gl readFile tr vtxFile).mp hne)

theorem fragStage_result (gl : Driver) (readFile : String → String) (tr : List GLCall)
    (vtxFile fragFile : String) [Decidable (fragCompiled gl readFile tr vtxFile fragFile)] :
    (fragStage gl readFile tr vtxFile fragFile).1 =
      if fragCompiled gl readFile tr vtxFile fragFile then fragHandle gl readFile tr vtxFile
      else 0 := by
  by_cases h : fragCompiled gl readFile tr vtxFile fragFile
  · rw [if_pos h, fragStage, compileShader_result, if_pos h.1]; rfl
  · rw [if_neg h]
    by_contra hne
    exact h ((fragStage_nonnull_iff gl readFile tr vtxFile fragFile).mp hne)

theorem compileProgram_created (gl : Driver) (readFile : String → String) (tr : List GLCall)
    (vtxFile fragFile : String) :
    createdShaders (compileProgram gl readFile tr vtxFile fragFile).2
      = [vtxHandle gl tr, fragHandle gl readFile tr vtxFile] := by
  rw [compileProgram_calls]
  simp only [createdShaders_append, (linkStage_created _ _ _ _ _).1, releaseShaders_created,
    vtxStage, fragStage, (compileShader_created _ _ _ _).1, List.append_nil]
  simp [createdShaders, vtxHandle, fragHandle, vtxStage]

theorem compileProgram_deleted (gl : Driver) (readFile : String → String) (tr : List GLCall)
    (vtxFile fragFile : String) :
    deletedShaders (compileProgram gl readFile tr vtxFile fragFile).2
      = deletedShaders (vtxStage gl readFile tr vtxFile).2
        ++ deletedShaders (fragStage gl readFile tr vtxFile fragFile).2
        ++ deletedShaders (releaseShaders (vtxStage gl readFile tr vtxFile).1
            (fragStage gl readFile tr vtxFile fragFile).1) := by
  rw [compileProgram_calls]
  simp only [deletedShaders_append, (linkStage_created _ _ _ _ _).2, List.append_nil]
  simp [deletedShaders]

/-- C5: when the two `glCreateShader` calls of a `compileProgram` run return
distinct non-null handles, the run creates exactly two shaders, deletes each
of them exactly once and deletes nothing else, whatever the compile and link
outcomes.  The run ends with the program's own release code, and a stage that
compiled is deleted there, whatever happened to the other stage. -/
theorem compileProgram_releases_shaders (gl : Driver) (readFile : String → String)
    (tr : List GLCall) (vtxFile fragFile : String)
    (hdistinct : (createdShaders (compileProgram gl readFile tr vtxFile fragFile).2).Nodup)
    (hnonnull : 0 ∉ createdShaders (compileProgram gl readFile tr vtxFile fragFile).2) :
    (createdShaders (compileProgram gl readFile tr vtxFile fragFile).2).length = 2
    ∧ (∀ h ∈ createdShaders (compileProgram gl readFile tr vtxFile fragFile).2,
        (deletedShaders (compileProgram gl readFile tr vtxFile fragFile).2).count h = 1)
    ∧ (∀ h ∈ deletedShaders (compileProgram gl readFile tr vtxFile fragFile).2,
        h ∈ createdShaders (compileProgram gl readFile tr vtxFile fragFile).2)
    ∧ (∃ before, (compileProgram gl readFile tr vtxFile fragFile).2
        = before ++ releaseShaders (vtxStage gl readFile tr vtxFile).1
            (fragStage gl readFile tr vtxFile fragFile).1)
    ∧ (vtxCompiled gl readFile tr vtxFile →
        (deletedShaders (releaseShaders (vtxStage gl readFile tr vtxFile).1
          (fragStage gl readFile tr vtxFile fragFile).1)).count (vtxHandle gl tr) = 1)
    ∧ (fragCompiled gl readFile tr vtxFile fragFile →
        (deletedShaders (releaseShaders (vtxStage gl readFile tr vtxFile).1
          (fragStage gl readFile tr vtxFile fragFile).1)).count
            (fragHandle gl readFile tr vtxFile) = 1) := by
  classical
  rw [compileProgram_created] at hdistinct hnonnull
  have hvf : vtxHandle gl tr ≠ fragHandle gl readFile tr vtxFile := by
    intro e; rw [e] at hdistinct; simp at hdistinct
  have hv0 : vtxHandle gl tr ≠ 0 := by
    intro e; apply hnonnull; simp [e]
  have hf0 : fragHandle gl readFile tr vtxFile ≠ 0 := by
    intro e; apply hnonnull; simp [e]
  have hfv : fragHandle gl readFile tr vtxFile ≠ vtxHandle gl tr := fun e => hvf e.symm
  have dv : deletedShaders (vtxStage gl readFile tr vtxFile).2
      = if vtxCompiled gl readFile tr vtxFile then [] else [vtxHandle gl tr] := by
    rw [vtxStage, compileShader_deleted]
    by_cases h : vtxCompiled gl readFile tr vtxFile
    · rw [if_pos h.1, if_pos h]
    · have : ¬ compileStatus gl (tr ++ [GLCall.glCreateProgram (gl.glCreateProgram tr)])
          (readFile vtxFile) GL_VERTEX_SHADER = GL_TRUE := fun hs => h ⟨hs, hv0⟩
      rw [if_neg this, if_neg h]; rfl
  have df : deletedShaders (fragStage gl readFile tr vtxFile fragFile).2
      = if fragCompiled gl readFile tr vtxFile fragFile then []
        else [fragHandle gl readFile tr vtxFile] := by
    rw [fragStage, compileShader_deleted]
    by_cases h : fragCompiled gl readFile tr vtxFile fragFile
    · rw [if_pos h.1, if_pos h]
    · have : ¬ compileStatus gl
          (tr ++ ([GLCall.glCreateProgram (gl.glCreateProgram tr)]
            ++ (vtxStage gl readFile tr vtxFile).2))
          (readFile fragFile) GL_FRAGMENT_SHADER = GL_TRUE := fun hs => h ⟨hs, hf0⟩
      rw [if_neg this, if_neg h]; rfl
  have hr : deletedShaders (releaseShaders (vtxStage gl readFile tr vtxFile).1
      (fragStage gl readFile tr vtxFile fragFile).1)
      = (if vtxCompiled gl readFile tr vtxFile then [vtxHandle gl tr] else [])
        ++ (if fragCompiled gl readFile tr vtxFile fragFile then
              [fragHandle gl readFile tr vtxFile] else []) := by
    rw [releaseShaders_deleted, vtxStage_result, fragStage_result]
    by_cases cv : vtxCompiled gl readFile tr vtxFile <;>
      by_cases cf : fragCompiled gl readFile tr vtxFile fragFile <;>
      simp [cv, cf, hv0, hf0]
  have hd := compileProgram_deleted gl readFile tr vtxFile fragFile
  rw [dv, df, hr] at hd
  have hc := compileProgram_created gl readFile tr vtxFile fragFile
  refine ⟨?_, ?_, ?_, ⟨_, compileProgram_calls gl readFile tr vtxFile fragFile⟩, ?_, ?_⟩
  · rw [hc]; rfl
  · rw [hc, hd]
    intro h hmem
    simp only [List.mem_cons, List.mem_singleton, List.not_mem_nil, or_false] at hmem
    by_cases cv : vtxCompiled gl readFile tr vtxFile <;>
      by_cases cf : fragCompiled gl readFile tr vtxFile fragFile <;>
      rcases hmem with rfl | rfl <;>
      simp [cv, cf, hvf, hfv, List.count_cons, List.count_nil]
  · rw [hc, hd]
    intro h hmem
    by_cases cv : vtxCompiled gl readFile tr vtxFile <;>
      by_cases cf : fragCompiled gl readFile tr vtxFile fragFile <;>
      simp [cv, cf] at hmem ⊢ <;> tauto
  · intro cv
    rw [hr]
    by_cases cf : fragCompiled gl readFile tr vtxFile fragFile <;>
      simp [cv, cf, hvf, hfv, List.count_cons, List.count_nil]
  · intro cf
    rw [hr]
    by_cases cv : vtxCompiled gl readFile tr vtxFile <;>
      simp [cv, cf, hvf, hfv, List.count_cons, List.count_nil]

theorem compileProgram_releases_shaders_witness :
    (createdShaders (compileProgram (sampleDriver (fun h => h == 2) 3) emptyFiles []
      "std.vertex" "crt.fragment").2).Nodup
    ∧ 0 ∉ createdShaders (compileProgram (sampleDriver (fun h => h == 2) 3) emptyFiles []
      "std.vertex" "crt.fragment").2
    ∧ createdShaders (compileProgram (sampleDriver (fun h => h == 2) 3) emptyFiles []
      "std.vertex" "crt.fragment").2 = [2, 6]
    ∧ deletedShaders (compileProgram (sampleDriver (fun h => h == 2) 3) emptyFiles []
      "std.vertex" "crt.fragment").2 = [6, 2]
    ∧ ∀ h ∈ createdShaders (compileProgram (sampleDriver (fun h => h == 2) 3) emptyFiles []
        "std.vertex" "crt.fragment").2,
      (deletedShaders (compileProgram (sampleDriver (fun h => h == 2) 3) emptyFiles []
        "std.vertex" "crt.fragment").2).count h = 1 :=
  ⟨by decide, by decide, by decide, by decide,
    (compileProgram_releases_shaders (sampleDriver (fun h => h == 2) 3) emptyFiles []
      "std.vertex" "crt.fragment" (by decide) (by decide)).2.1⟩

theorem toGLuint_toGLint (u : Nat) (h : u < 2 ^ 32) : toGLuint (toGLint u) = u := by
  unfold toGLuint toGLint
  rw [Nat.mod_eq_of_lt h]
  split_ifs with h1 <;> omega

/-- C2: for every program handle (zero or not) and every active program held
in the 32-bit slot, the active program after `presentBackBuffer` returns is the
one that was active when it was called. -/
theorem presentBackBuffer_restores_program (ctx : GLContext) (backBuffer programId : Nat)
    (oldProgramId : Int) (h : ctx.currentProgram < 2 ^ 32) :
    (presentBackBuffer ctx backBuffer programId oldProgramId).currentProgram
      = ctx.currentProgram := by
  by_cases hp : programId = 0
  · simp [presentBackBuffer, hp]
  · simp [presentBackBuffer, hp, glUseProgram, glGetIntegerv_CURRENT_PROGRAM,
      toGLuint_toGLint _ h]

theorem presentBackBuffer_restores_program_witness :
    (presentBackBuffer ⟨7, some 3, 0, none, [], 0⟩ 3 5 (-1)).currentProgram = 7
    ∧ (presentBackBuffer ⟨0, some 3, 0, none, [], 0⟩ 3 5 (-1)).currentProgram = 0
    ∧ (presentBackBuffer ⟨4294967295, some 3, 0, none, [], 0⟩ 3 5 0).currentProgram = 4294967295
    ∧ (presentBackBuffer ⟨7, some 3, 0, none, [], 0⟩ 3 0 (-1)).currentProgram = 7 :=
  ⟨presentBackBuffer_restores_program ⟨7, some 3, 0, none, [], 0⟩ 3 5 (-1) (by decide),
   presentBackBuffer_restores_program ⟨0, some 3, 0, none, [], 0⟩ 3 5 (-1) (by decide),
   presentBackBuffer_restores_program ⟨4294967295, some 3, 0, none, [], 0⟩ 3 5 0 (by decide),
   presentBackBuffer_restores_program ⟨7, some 3, 0, none, [], 0⟩ 3 0 (-1) (by decide)⟩

/-! ### Sprite motion -/

theorem tick_x (s : sprite) :
    (tick s).x = (bounceHighX (bounceLowX (moveX s))).x
    ∧ (tick s).vx = (bounceHighX (bounceLowX (moveX s))).vx := by
  simp only [tick, moveY, bounceLowY, bounceHighY]
  constructor <;> split_ifs <;> rfl

theorem tick_y (s : sprite) :
    (tick s).y = (bounceHighY (bounceLowY (moveY s))).y
    ∧ (tick s).vy = (bounceHighY (bounceLowY (moveY s))).vy := by
  simp only [tick, moveX, moveY, bounceLowX, bounceHighX, bounceLowY, bounceHighY]
  constructor <;> split_ifs <;> rfl

theorem axisX_cases (s : sprite) :
    (s.x + s.vx < 0 ∧ (tick s).x = 0 ∧ (tick s).vx = -s.vx)
    ∨ (288 < s.x + s.vx ∧ (tick s).x = 288 ∧ (tick s).vx = -s.vx)
    ∨ (0 ≤ s.x + s.vx ∧ s.x + s.vx ≤ 288 ∧ (tick s).x = s.x + s.vx ∧ (tick s).vx = s.vx) := by
  rw [(tick_x s).1, (tick_x s).2]
  simp only [moveX, bounceLowX, bounceHighX, WORLD_WIDTH, targetRect_w]
  split_ifs with h1 h2 h2 <;> norm_num at * <;> tauto

theorem axisY_cases (s : sprite) :
    (s.y + s.vy < 0 ∧ (tick s).y = 0 ∧ (tick s).vy = -s.vy)
    ∨ (208 < s.y + s.vy ∧ (tick s).y = 208 ∧ (tick s).vy = -s.vy)
    ∨ (0 ≤ s.y + s.vy ∧ s.y + s.vy ≤ 208 ∧ (tick s).y = s.y + s.vy ∧ (tick s).vy = s.vy) := by
  rw [(tick_y s).1, (tick_y s).2]
  simp only [moveY, bounceLowY, bounceHighY, WORLD_HEIGHT, targetRect_h]
  split_ifs with h1 h2 h2 <;> norm_num at * <;> tauto

theorem tick_inBounds (s : sprite) : inBounds (tick s) := by
  unfold inBounds
  rcases axisX_cases s with ⟨_, hx, _⟩ | ⟨_, hx, _⟩ | ⟨h0, h1, hx, _⟩ <;>
    rcases axisY_cases s with ⟨_, hy, _⟩ | ⟨_, hy, _⟩ | ⟨k0, k1, hy, _⟩ <;>
    rw [hx, hy] <;> norm_num <;> tauto

theorem branchX_iff (s : sprite) :
    (lowBranchX s ↔ s.x + s.vx < 0) ∧ (highBranchX s ↔ 288 < s.x + s.vx) := by
  simp only [lowBranchX, highBranchX, moveX, bounceLowX, WORLD_WIDTH, targetRect_w]
  constructor
  · trivial
  · split_ifs with h1 <;> norm_num
    linarith

theorem branchY_iff (s : sprite) :
    (lowBranchY s ↔ s.y + s.vy < 0) ∧ (highBranchY s ↔ 208 < s.y + s.vy) := by
  simp only [lowBranchY, highBranchY, moveX, moveY, bounceLowX, bounceHighX, bounceLowY,
    WORLD_HEIGHT, targetRect_h]
  constructor
  · split_ifs <;> rfl
  · split_ifs <;> norm_num <;> linarith

/-- C7: a sprite that starts inside the world rectangle (`0 ≤ x ≤ 288`,
`0 ≤ y ≤ 208`) is still inside it after any number of motion ticks, whatever
its velocity. -/
theorem ticks_inBounds (n : Nat) (s : sprite) (h : inBounds s) : inBounds (ticks n s) := by
  induction n generalizing s with
  | zero => exact h
  | succ k ih => exact ih (tick s) (tick_inBounds s)

theorem ticks_inBounds_witness :
    inBounds ⟨287, 0, -1 / 5, 1 / 5⟩ ∧ inBounds (ticks 1500 ⟨287, 0, -1 / 5, 1 / 5⟩) :=
  ⟨by unfold inBounds; norm_num,
   ticks_inBounds 1500 ⟨287, 0, -1 / 5, 1 / 5⟩ (by unfold inBounds; norm_num)⟩

/-- C8, as stated, fails: a sprite at `x = 1` moving with `vx = -1` lands
exactly on the lower bound, so its position after the tick is at a bound, and
its velocity is not negated. -/
theorem land_on_bound_keeps_velocity :
    inBounds ⟨1, 5, -1, 0⟩
    ∧ (tick ⟨1, 5, -1, 0⟩).x = 0
    ∧ (tick ⟨1, 5, -1, 0⟩).vx = -1
    ∧ (tick ⟨1, 5, -1, 0⟩).vx ≠ -(⟨1, 5, -1, 0⟩ : sprite).vx := by
  rcases axisX_cases ⟨1, 5, -1, 0⟩ with ⟨h, _, _⟩ | ⟨h, _, _⟩ | ⟨_, _, hx, hv⟩
  · norm_num at h
  · norm_num at h
  · refine ⟨by unfold inBounds; norm_num, ?_, ?_, ?_⟩
    · rw [hx]; norm_num
    · rw [hv]
    · rw [hv]; norm_num

theorem velocity_flip_cases (s : sprite) :
    ((lowBranchX s ∨ highBranchX s) ↔ (s.x + s.vx < 0 ∨ 288 < s.x + s.vx))
    ∧ ((s.x + s.vx < 0 ∨ 288 < s.x + s.vx) →
        (tick s).vx = -s.vx ∧ ((tick s).x = 0 ∨ (tick s).x = 288))
    ∧ (¬ (s.x + s.vx < 0 ∨ 288 < s.x + s.vx) →
        (tick s).vx = s.vx ∧ (tick s).x = s.x + s.vx)
    ∧ (s.vx ≠ 0 → ((tick s).vx = -s.vx ↔ (s.x + s.vx < 0 ∨ 288 < s.x + s.vx)))
    ∧ ((lowBranchY s ∨ highBranchY s) ↔ (s.y + s.vy < 0 ∨ 208 < s.y + s.vy))
    ∧ ((s.y + s.vy < 0 ∨ 208 < s.y + s.vy) →
        (tick s).vy = -s.vy ∧ ((tick s).y = 0 ∨ (tick s).y = 208))
    ∧ (¬ (s.y + s.vy < 0 ∨ 208 < s.y + s.vy) →
        (tick s).vy = s.vy ∧ (tick s).y = s.y + s.vy)
    ∧ (s.vy ≠ 0 → ((tick s).vy = -s.vy ↔ (s.y + s.vy < 0 ∨ 208 < s.y + s.vy))) := by
  have bx := branchX_iff s
  have bY := branchY_iff s
  refine ⟨by rw [bx.1, bx.2], ?_, ?_, ?_, by rw [bY.1, bY.2], ?_, ?_, ?_⟩
  · intro h
    rcases axisX_cases s with ⟨_, hx, hv⟩ | ⟨_, hx, hv⟩ | ⟨h0, h1, _, _⟩
    · exact ⟨hv, Or.inl hx⟩
    · exact ⟨hv, Or.inr hx⟩
    · rcases h with h | h <;> linarith
  · intro h
    rcases axisX_cases s with ⟨h0, _, _⟩ | ⟨h0, _, _⟩ | ⟨_, _, hx, hv⟩
    · exact absurd (Or.inl h0) h
    · exact absurd (Or.inr h0) h
    · exact ⟨hv, hx⟩
  · intro hne
    rcases axisX_cases s with ⟨h0, _, hv⟩ | ⟨h0, _, hv⟩ | ⟨h0, h1, _, hv⟩
    · exact ⟨fun _ => Or.inl h0, fun _ => hv⟩
    · exact ⟨fun _ => Or.inr h0, fun _ => hv⟩
    · constructor
      · intro e
        rw [hv] at e
        exact absurd (by linarith : s.vx = 0) hne
      · intro h
        rcases h with h | h <;> linarith
  · intro h
    rcases axisY_cases s with ⟨_, hx, hv⟩ | ⟨_, hx, hv⟩ | ⟨h0, h1, _, _⟩
    · exact ⟨hv, Or.inl hx⟩
    · exact ⟨hv, Or.inr hx⟩
    · rcases h with h | h <;> linarith
  · intro h
    rcases axisY_cases s with ⟨h0, _, _⟩ | ⟨h0, _, _⟩ | ⟨_, _, hx, hv⟩
    · exact absurd (Or.inl h0) h
    · exact absurd (Or.inr h0) h
    · exact ⟨hv, hx⟩
  · intro hne
    rcases axisY_cases s with ⟨h0, _, hv⟩ | ⟨h0, _, hv⟩ | ⟨h0, h1, _, hv⟩
    · exact ⟨fun _ => Or.inl h0, fun _ => hv⟩
    · exact ⟨fun _ => Or.inr h0, fun _ => hv⟩
    · constructor
      · intro e
        rw [hv] at e
        exact absurd (by linarith : s.vy = 0) hne
      · intro h
        rcases h with h | h <;> linarith

/-- C8, amended (coordinates as exact rationals): on each axis independently,
one motion tick negates the velocity if and only if one of the two clamping
branches of that axis is taken, that is, if and only if the sum stored by the
tick (position plus velocity) is strictly below `0` or strictly above the upper
bound (288 for x, 208 for y); the position after such a tick is at a bound.  In
every other tick, landing exactly on a bound included, the velocity is
unchanged and the position is the stored sum. -/
theorem velocity_flips_iff_out_of_range (s : sprite) :
    ((lowBranchX s ∨ highBranchX s) ↔ (s.x + s.vx < 0 ∨ 288 < s.x + s.vx))
    ∧ ((s.x + s.vx < 0 ∨ 288 < s.x + s.vx) →
        (tick s).vx = -s.vx ∧ ((tick s).x = 0 ∨ (tick s).x = 288))
    ∧ (¬ (s.x + s.vx < 0 ∨ 288 < s.x + s.vx) →
        (tick s).vx = s.vx ∧ (tick s).x = s.x + s.vx)
    ∧ (s.vx ≠ 0 → ((tick s).vx = -s.vx ↔ (s.x + s.vx < 0 ∨ 288 < s.x + s.vx)))
    ∧ ((lowBranchY s ∨ highBranchY s) ↔ (s.y + s.vy < 0 ∨ 208 < s.y + s.vy))
    ∧ ((s.y + s.vy < 0 ∨ 208 < s.y + s.vy) →
        (tick s).vy = -s.vy ∧ ((tick s).y = 0 ∨ (tick s).y = 208))
    ∧ (¬ (s.y + s.vy < 0 ∨ 208 < s.y + s.vy) →
        (tick s).vy = s.vy ∧ (tick s).y = s.y + s.vy)
    ∧ (s.vy ≠ 0 → ((tick s).vy = -s.vy ↔ (s.y + s.vy < 0 ∨ 208 < s.y + s.vy)))
    ∧ (moveX s).x = s.x + s.vx
    ∧ ((lowBranchX s ∨ highBranchX s) →
        (tick s).vx = -s.vx ∧ ((tick s).x = 0 ∨ (tick s).x = 288))
    ∧ (¬ (lowBranchX s ∨ highBranchX s) →
        (tick s).vx = s.vx ∧ (tick s).x = (moveX s).x)
    ∧ (s.vx ≠ 0 → ((tick s).vx = -s.vx ↔ (lowBranchX s ∨ highBranchX s)))
    ∧ (moveY (bounceHighX (bounceLowX (moveX s)))).y = s.y + s.vy
    ∧ ((lowBranchY s ∨ highBranchY s) →
        (tick s).vy = -s.vy ∧ ((tick s).y = 0 ∨ (tick s).y = 208))
    ∧ (¬ (lowBranchY s ∨ highBranchY s) →
        (tick s).vy = s.vy
        ∧ (tick s).y = (moveY (bounceHighX (bounceLowX (moveX s)))).y)
    ∧ (s.vy ≠ 0 → ((tick s).vy = -s.vy ↔ (lowBranchY s ∨ highBranchY s))) := by
  obtain ⟨x1, x2, x3, x4, y1, y2, y3, y4⟩ := velocity_flip_cases s
  have sumY : (moveY (bounceHighX (bounceLowX (moveX s)))).y = s.y + s.vy := by
    simp only [moveX, moveY, bounceLowX, bounceHighX]
    split_ifs <;> rfl
  refine ⟨x1, x2, x3, x4, y1, y2, y3, y4, rfl, ?_, ?_, ?_, sumY, ?_, ?_, ?_⟩
  · exact fun hb => x2 (x1.mp hb)
  · exact fun hb => x3 (fun h => hb (x1.mpr h))
  · exact fun hne => (x4 hne).trans x1.symm
  · exact fun hb => y2 (y1.mp hb)
  · intro hb
    rw [sumY]
    exact y3 (fun h => hb (y1.mpr h))
  · exact fun hne => (y4 hne).trans y1.symm

theorem velocity_flips_iff_out_of_range_witness :
    ((tick ⟨287, 100, 3, 0⟩).vx = -3
      ∧ ((tick ⟨287, 100, 3, 0⟩).x = 0 ∨ (tick ⟨287, 100, 3, 0⟩).x = 288))
    ∧ ((tick ⟨1, 100, -1, 0⟩).vx = -1 ∧ (tick ⟨1, 100, -1, 0⟩).x = 1 + -1) :=
  ⟨(velocity_flips_iff_out_of_range ⟨287, 100, 3, 0⟩).2.1 (by norm_num),
   (velocity_flips_iff_out_of_range ⟨1, 100, -1, 0⟩).2.2.1 (by norm_num)⟩

/-- C10: for a sprite inside the world rectangle, a tick that takes the
lower-bound branch on an axis leaves the position at `0` and the velocity on
that axis strictly positive, a tick that takes the upper-bound branch leaves
the position at the upper bound and the velocity strictly negative, the two
branches of an axis are never both taken in one tick, and the magnitude of the
velocity is unchanged. -/
theorem reflection_points_inward (s : sprite) (h : inBounds s) :
    (lowBranchX s → (tick s).x = 0 ∧ 0 < (tick s).vx)
    ∧ (highBranchX s → (tick s).x = 288 ∧ (tick s).vx < 0)
    ∧ ¬ (lowBranchX s ∧ highBranchX s)
    ∧ |(tick s).vx| = |s.vx|
    ∧ (lowBranchY s → (tick s).y = 0 ∧ 0 < (tick s).vy)
    ∧ (highBranchY s → (tick s).y = 208 ∧ (tick s).vy < 0)
    ∧ ¬ (lowBranchY s ∧ highBranchY s)
    ∧ |(tick s).vy| = |s.vy| := by
  obtain ⟨hx0, hx1, hy0, hy1⟩ := h
  rw [(branchX_iff s).1, (branchX_iff s).2, (branchY_iff s).1, (branchY_iff s).2]
  refine ⟨?_, ?_, ?_, ?_, ?_, ?_, ?_, ?_⟩
  · intro hb
    rcases axisX_cases s with ⟨_, hx, hv⟩ | ⟨h0, _, _⟩ | ⟨h0, _, _, _⟩
    · exact ⟨hx, by rw [hv]; linarith⟩
    · linarith
    · linarith
  · intro hb
    rcases axisX_cases s with ⟨h0, _, _⟩ | ⟨_, hx, hv⟩ | ⟨_, h1, _, _⟩
    · linarith
    · exact ⟨hx, by rw [hv]; linarith⟩
    · linarith
  · intro hb; linarith [hb.1, hb.2]
  · rcases axisX_cases s with ⟨_, _, hv⟩ | ⟨_, _, hv⟩ | ⟨_, _, _, hv⟩ <;> rw [hv] <;> simp
  · intro hb
    rcases axisY_cases s with ⟨_, hx, hv⟩ | ⟨h0, _, _⟩ | ⟨h0, _, _, _⟩
    · exact ⟨hx, by rw [hv]; linarith⟩
    · linarith
    · linarith
  · intro hb
    rcases axisY_cases s with ⟨h0, _, _⟩ | ⟨_, hx, hv⟩ | ⟨_, h1, _, _⟩
    · linarith
    · exact ⟨hx, by rw [hv]; linarith⟩
    · linarith
  · intro hb; linarith [hb.1, hb.2]
  · rcases axisY_cases s with ⟨_, _, hv⟩ | ⟨_, _, hv⟩ | ⟨_, _, _, hv⟩ <;> rw [hv] <;> simp

theorem reflection_points_inward_witness :
    inBounds ⟨1, 207, -3, 2⟩
    ∧ lowBranchX ⟨1, 207, -3, 2⟩ ∧ highBranchY ⟨1, 207, -3, 2⟩
    ∧ ((tick ⟨1, 207, -3, 2⟩).x = 0 ∧ 0 < (tick ⟨1, 207, -3, 2⟩).vx)
    ∧ ((tick ⟨1, 207, -3, 2⟩).y = 208 ∧ (tick ⟨1, 207, -3, 2⟩).vy < 0) :=
  have hb : inBounds ⟨1, 207, -3, 2⟩ := by unfold inBounds; norm_num
  have hl : lowBranchX ⟨1, 207, -3, 2⟩ := by rw [(branchX_iff _).1]; norm_num
  have hh : highBranchY ⟨1, 207, -3, 2⟩ := by rw [(branchY_iff _).2]; norm_num
  ⟨hb, hl, hh, (reflection_points_inward ⟨1, 207, -3, 2⟩ hb).1 hl,
    (reflection_points_inward ⟨1, 207, -3, 2⟩ hb).2.2.2.2.2.1 hh⟩

/-! ### Startup -/

theorem mainStartup_of_init_failure (sdlInit : Int) (rendererName : List Char)
    (lookup : String → Nat) (h : sdlInit ≠ 0) :
    mainStartup sdlInit rendererName lookup = [StartupEvent.terminated 1] := by
  simp [mainStartup, h]

theorem mainStartup_of_opengl (rendererName : List Char) (lookup : String → Nat)
    (h : strncmp rendererName "opengl".toList 6 = 0) :
    mainStartup 0 rendererName lookup =
      if (initGLExtensions lookup).1 = true then
        [StartupEvent.initGLExtensions true,
         StartupEvent.compileProgram (initGLExtensions lookup).2, StartupEvent.mainLoop]
      else
        [StartupEvent.initGLExtensions false, StartupEvent.SDL_Quit,
         StartupEvent.terminated (-1)] := by
  unfold mainStartup
  rw [if_neg (by decide), if_pos h]
  cases hr : (initGLExtensions lookup).1 <;> simp [hr]

theorem initGLExtensions_populated (lookup : String → Nat) :
    (initGLExtensions lookup).2.populated = (initGLExtensions lookup).1 := rfl

theorem mainStartup_opengl_gated (rendererName : List Char) (lookup : String → Nat)
    (h : strncmp rendererName "opengl".toList 6 = 0) (t : GLExtensions)
    (ht : StartupEvent.compileProgram t ∈ mainStartup 0 rendererName lookup) :
    t.populated = true
    ∧ StartupEvent.initGLExtensions true ∈ mainStartup 0 rendererName lookup := by
  rw [mainStartup_of_opengl rendererName lookup h] at ht ⊢
  by_cases hr : (initGLExtensions lookup).1 = true
  · rw [if_pos hr] at ht ⊢
    simp at ht
    subst ht
    exact ⟨by rw [initGLExtensions_populated]; exact hr, by simp⟩
  · rw [if_neg hr] at ht
    simp at ht

/-- C9: the code falls short of the claim.  When `SDL_Init` succeeds and the
renderer is not an OpenGL one (here `direct3d`), `main` never calls
`initGLExtensions`, does not terminate, and calls `compileProgram` with every
function pointer still null, whatever the resolver would have answered.  The
startup model lists the main loop as the step after that call; the running
process does not get there, since `compileProgram` calls through a null
pointer at line 119. -/
theorem main_compiles_with_unresolved_table (lookup : String → Nat) :
    mainStartup 0 "direct3d".toList lookup
      = [StartupEvent.compileProgram GLExtensions.unresolved, StartupEvent.mainLoop]
    ∧ GLExtensions.unresolved.populated = false
    ∧ (∀ ok, StartupEvent.initGLExtensions ok ∉ mainStartup 0 "direct3d".toList lookup)
    ∧ (∀ status, StartupEvent.terminated status ∉ mainStartup 0 "direct3d".toList lookup) := by
  have hcmp : strncmp "direct3d".toList "opengl".toList 6 ≠ 0 := by decide
  have hrun : mainStartup 0 "direct3d".toList lookup
      = [StartupEvent.compileProgram GLExtensions.unresolved, StartupEvent.mainLoop] := by
    unfold mainStartup
    rw [if_neg (by decide), if_neg hcmp]
  refine ⟨hrun, by decide, ?_, ?_⟩
  · intro ok; rw [hrun]; simp
  · intro status; rw [hrun]; simp

end Sdl2glsl
